import Mathlib

/-!
Shallow embedding of the TopScroller game core (src/main.go).

The simulation state and the per-tick logic of `Game.Update`, `Game.loseLife`
and the pacing helpers `spawnInterval` / `fireDelay` / `enemySpeed` are
translated directly from the Go source.  Coordinates are modelled exactly,
as integers counting tenths of a pixel: every float64 constant of the game
is a multiple of 0.1 (sizes, speeds, screen bounds), so scaling the Go
values by 10 embeds the arithmetic of `Update` into `Int` without loss
(all position updates are additions, and every comparison is homogeneous,
so the scaling is an exact isomorphism of the rational-number semantics;
no claim under verification depends on float64 rounding).

Presentation-only state (background scrolling, star field, audio players,
sprites) is omitted: it has no effect on the simulation fields the claims
speak about.  The `resolv` spatial index is modelled by the set of live
enemy rectangles: every query in the source filters by the enemy tag, the
grid broad phase never changes the result of an overlap query (a shape is
registered in every cell it intersects, so overlapping shapes always share
a cell), and shape identity is modelled by a per-enemy `id` issued from the
`nextId` counter (the Go code keys its `dead` map on shape pointers).
Randomness (`rng.Float64()` for the spawn x position) and key presses are
injected through the per-tick `Input`, mirroring ebiten's input polling.
-/

/-- Kill quotas per round (src/main.go line 55: `var rounds = []int{6, 12, 18, 24, 30, 42}`). -/
def rounds : List Nat := [6, 12, 18, 24, 30, 42]

/-- Screen width, 480 pixels, in tenths of a pixel (src/main.go const block). -/
def screenW : Int := 4800

/-- Screen height, 640 pixels, in tenths of a pixel (src/main.go const block). -/
def screenH : Int := 6400

/-- Player square size, 35 pixels, in tenths of a pixel (src/main.go const block). -/
def playerSize : Int := 350

/-- Player speed per tick, 3 pixels, in tenths of a pixel (src/main.go const block). -/
def playerSpeed : Int := 30

/-- Bullet square size, 26 pixels, in tenths of a pixel (src/main.go const block). -/
def bulletSize : Int := 260

/-- Bullet vertical speed, -6 pixels per tick; negative means upward
(src/main.go const block). -/
def bulletSpeed : Int := -60

/-- Enemy square size, 38 pixels, in tenths of a pixel (src/main.go const block). -/
def enemySize : Int := 380

/-- Base enemy speed, 1.1 pixels per tick, in tenths of a pixel
(src/main.go const block). -/
def baseEnemySpeed : Int := 11

/-- Frames between spawns at round 0 (src/main.go const block). -/
def baseSpawnInterval : Int := 32

/-- Lower bound on the spawn interval (src/main.go const block). -/
def minSpawnInterval : Int := 12

/-- Starting number of lives (src/main.go const block). -/
def startLives : Int := 2

/-- Invulnerability window after a hit, in ticks (src/main.go const block). -/
def iframeTicks : Int := 60

/-- `enemySpeed(r) = baseEnemySpeed + 0.3*r` (src/main.go line 125); in
tenths of a pixel per tick, 0.3 scales to 3. -/
def enemySpeed (r : Nat) : Int := baseEnemySpeed + 3 * r

/-- `spawnInterval(r)`: `n := baseSpawnInterval - 2*r`, floored at
`minSpawnInterval` (src/main.go lines 126-132). -/
def spawnInterval (r : Nat) : Int :=
  let n := baseSpawnInterval - 2 * (r : Int)
  if n < minSpawnInterval then minSpawnInterval else n

/-- `fireDelay(r)`: `d := 10 - r/2`, floored at 8 (src/main.go lines 133-139). -/
def fireDelay (r : Nat) : Int :=
  let d := 10 - (r : Int) / 2
  if d < 8 then 8 else d

/-- A bullet: position and vertical velocity (src/main.go `type bullet`).
The collision shape is the `bulletSize` square at `(x, y)`. -/
structure Bullet where
  x : Int
  y : Int
  vy : Int
  deriving Repr, DecidableEq

/-- An enemy: position and vertical velocity (src/main.go `type enemy`).
`id` models the identity of its `resolv` shape (the Go `dead` map is keyed
on shape pointers). -/
structure Enemy where
  id : Nat
  x : Int
  y : Int
  vy : Int
  deriving Repr, DecidableEq

/-- Per-tick input: the key states polled by `Update` plus the random spawn
x position drawn from `rng.Float64() * (screenW - enemySize)`. -/
structure Input where
  left : Bool
  right : Bool
  up : Bool
  down : Bool
  fire : Bool
  spawnX : Int
  deriving Repr, DecidableEq

/-- The simulation-relevant fields of `type Game` (src/main.go).
`nextId` is modelling machinery: it issues fresh shape identities for
spawned enemies, standing in for pointer identity of `resolv` shapes. -/
structure Game where
  px : Int
  py : Int
  bullets : List Bullet
  enemies : List Enemy
  roundIdx : Nat
  roundSpawned : Nat
  roundKills : Nat
  totalKills : Nat
  cooldown : Int
  spawnTimer : Int
  lives : Int
  inv : Int
  win : Bool
  over : Bool
  nextId : Nat
  deriving Repr, DecidableEq

/-- Strict axis-aligned rectangle overlap; models a `resolv`
`IntersectionTest` between two rectangles (overlap iff
`ax < bx+bw ∧ ax+aw > bx ∧ ay < by+bh ∧ ay+ah > by`). -/
def overlaps (ax ay aw ah qx qy qw qh : Int) : Bool :=
  decide (ax < qx + qw) && decide (qx < ax + aw) &&
  decide (ay < qy + qh) && decide (qy < ay + ah)

/-- Does bullet `b` overlap enemy `e`? -/
def bulletHits (b : Bullet) (e : Enemy) : Bool :=
  overlaps b.x b.y bulletSize bulletSize e.x e.y enemySize enemySize

/-- The first enemy (in iteration order) overlapping bullet `b`;
models `IntersectionTest` with `OnIntersect` returning `false`
(stop after the first intersection), src/main.go lines 376-383. -/
def firstEnemyHit (b : Bullet) : List Enemy → Option Nat
  | [] => none
  | e :: es => if bulletHits b e then some e.id else firstEnemyHit b es

/-- A bullet advanced by its velocity (`b.y += b.vy`). -/
def moveBullet (b : Bullet) : Bullet := { b with y := b.y + b.vy }

/-- An enemy advanced by its velocity (`e.y += e.vy`). -/
def moveEnemy (e : Enemy) : Enemy := { e with y := e.y + e.vy }

/-- The bullet loop (src/main.go lines 368-397): each bullet moves, tests
against the enemy shapes currently in the space (enemies marked dead this
tick are still present — they are only removed in the enemy loop), and is
kept exactly when it did not hit and `b.y + bulletSize > 0`.  Returns the
surviving bullets, the accumulated dead-shape set, and the number of hits
(each hit increments `roundKills` and `totalKills` by one). -/
def bulletPass (bs : List Bullet) (es : List Enemy) (dead : List Nat) :
    List Bullet × List Nat × Nat :=
  match bs with
  | [] => ([], dead, 0)
  | b :: rest =>
    let b' := moveBullet b
    match firstEnemyHit b' es with
    | some eid =>
      let r := bulletPass rest es (eid :: dead)
      (r.1, r.2.1, r.2.2 + 1)
    | none =>
      if b'.y + bulletSize > 0 then
        let r := bulletPass rest es dead
        (b' :: r.1, r.2.1, r.2.2)
      else
        bulletPass rest es dead

/-- `Game.loseLife` (src/main.go lines 267-277). -/
def loseLife (g : Game) : Game :=
  if g.inv > 0 || g.win || g.over then g
  else
    let g := { g with lives := g.lives - 1, inv := iframeTicks }
    if g.lives < 0 then { g with over := true } else g

/-- Does any enemy shape in the space overlap the player square?
(src/main.go lines 409-412). -/
def playerHitBy (px py : Int) (es : List Enemy) : Bool :=
  es.any fun e => overlaps px py playerSize playerSize e.x e.y enemySize enemySize

/-- The enemy→player check of one enemy-loop iteration (src/main.go lines
407-416): if not invulnerable and some enemy shape overlaps the player,
lose a life. -/
def touchCheck (px py : Int) (space : List Enemy) (g : Game) : Game :=
  if g.inv == 0 && playerHitBy px py space then loseLife g else g

/-- The enemy loop (src/main.go lines 400-432).  `done` holds the already
retained enemies (at their new positions), `rest` the unprocessed ones (at
last tick's positions).  Each iteration moves one enemy, runs the player
overlap test against every enemy shape still in the space
(`done ++ e' :: rs`), then removes the enemy if it was marked dead (no
`loseLife`), removes it with `loseLife` if it passed the bottom boundary,
and retains it otherwise. -/
def enemyPass (dead : List Nat) (px py : Int) (done rest : List Enemy) (g : Game) :
    List Enemy × Game :=
  match rest with
  | [] => (done, g)
  | e :: rs =>
    let e' := moveEnemy e
    let g' := touchCheck px py (done ++ e' :: rs) g
    if e'.id ∈ dead then
      enemyPass dead px py done rs g'
    else if screenH < e'.y then
      enemyPass dead px py done rs (loseLife g')
    else
      enemyPass dead px py (done ++ [e']) rs g'

/-- Player movement and clamping (src/main.go lines 307-331). -/
def movePlayer (i : Input) (g : Game) : Game :=
  let px := if i.left then g.px - playerSpeed else g.px
  let px := if i.right then px + playerSpeed else px
  let py := if i.up then g.py - playerSpeed else g.py
  let py := if i.down then py + playerSpeed else py
  let px := if px < 0 then 0 else px
  let px := if px > screenW - playerSize then screenW - playerSize else px
  let py := if py < 0 then 0 else py
  let py := if py > screenH - playerSize then screenH - playerSize else py
  { g with px := px, py := py }

/-- Invulnerability and fire-cooldown countdown (src/main.go lines 334-341). -/
def tickTimers (g : Game) : Game :=
  let g := if g.inv > 0 then { g with inv := g.inv - 1 } else g
  if g.cooldown > 0 then { g with cooldown := g.cooldown - 1 } else g

/-- Firing (src/main.go lines 342-351): if fire is pressed and the cooldown
is zero, append a bullet at the muzzle and reset the cooldown. -/
def fireStep (i : Input) (g : Game) : Game :=
  if i.fire && g.cooldown == 0 then
    let bx := g.px + playerSize / 2 - bulletSize / 2
    { g with
      bullets := g.bullets ++ [{ x := bx, y := g.py - bulletSize, vy := bulletSpeed }],
      cooldown := fireDelay g.roundIdx }
  else g

/-- Enemy spawning (src/main.go lines 353-365): decrement the spawn timer;
when it expires and the round index is in bounds, spawn a new enemy only if
the round's quota is not yet met, and reset the timer either way. -/
def spawnStep (i : Input) (g : Game) : Game :=
  let g := { g with spawnTimer := g.spawnTimer - 1 }
  if g.spawnTimer ≤ 0 ∧ g.roundIdx < rounds.length then
    let g :=
      if g.roundSpawned < rounds.getD g.roundIdx 0 then
        { g with
          enemies := g.enemies ++
            [{ id := g.nextId, x := i.spawnX, y := -enemySize, vy := enemySpeed g.roundIdx }],
          roundSpawned := g.roundSpawned + 1,
          nextId := g.nextId + 1 }
      else g
    { g with spawnTimer := spawnInterval g.roundIdx }
  else g

/-- The bullet loop applied to the game state: returns the updated state
and the set of enemy shapes marked dead this tick. -/
def bulletStep (g : Game) : Game × List Nat :=
  let r := bulletPass g.bullets g.enemies []
  ({ g with
      bullets := r.1,
      roundKills := g.roundKills + r.2.2,
      totalKills := g.totalKills + r.2.2 },
   r.2.1)

/-- The enemy loop applied to the game state. -/
def enemyStage (dead : List Nat) (g : Game) : Game :=
  let r := enemyPass dead g.px g.py [] g.enemies g
  { r.2 with enemies := r.1 }

/-- Round advancement (src/main.go lines 434-442): when the current round's
quota is reached, advance the index, reset both per-round counters and the
spawn timer, and set `win` if the new index is past the last round. -/
def maybeAdvance (g : Game) : Game :=
  if g.roundIdx < rounds.length ∧ rounds.getD g.roundIdx 0 ≤ g.roundKills then
    let g := { g with roundIdx := g.roundIdx + 1, roundKills := 0, roundSpawned := 0 }
    let g := { g with spawnTimer := spawnInterval g.roundIdx }
    if rounds.length ≤ g.roundIdx then { g with win := true } else g
  else g

/-- One tick of the simulation: `Game.Update` (src/main.go lines 280-445).
Frozen once `win` or `over` holds; otherwise runs the stages in source
order. -/
def Update (i : Input) (g : Game) : Game :=
  if g.win || g.over then g
  else
    let g := movePlayer i g
    let g := tickTimers g
    let g := fireStep i g
    let g := spawnStep i g
    let p := bulletStep g
    let g := enemyStage p.2 p.1
    maybeAdvance g

/-- The initial state built by `newGame` (src/main.go lines 142-172),
restricted to the simulation fields. -/
def newGame : Game :=
  { px := screenW / 2 - playerSize / 2
    py := screenH - 2 * playerSize
    bullets := []
    enemies := []
    roundIdx := 0
    roundSpawned := 0
    roundKills := 0
    totalKills := 0
    cooldown := 0
    spawnTimer := spawnInterval 0
    lives := startLives
    inv := 0
    win := false
    over := false
    nextId := 0 }

/-- Running the simulation over a list of per-tick inputs. -/
def run (l : List Input) (g : Game) : Game := l.foldl (fun s i => Update i s) g

/-- The states reachable from `newGame` by some sequence of inputs. -/
inductive Reachable : Game → Prop
  | init : Reachable newGame
  | step (i : Input) (g : Game) : Reachable g → Reachable (Update i g)

/-! ### Concrete inputs and states used in witnesses and counterexamples -/

/-- A tick with no keys pressed. -/
def idleInput : Input :=
  { left := false, right := false, up := false, down := false, fire := false, spawnX := 0 }

/-- A bullet about to land exactly on the top-exit boundary: after moving
by `bulletSpeed` its top is at `y = -bulletSize`, so `y + bulletSize = 0`. -/
def exitBullet : Bullet := { x := 0, y := -200, vy := bulletSpeed }

/-- A playing state whose only entity is `exitBullet` (spawn timer pushed
out so the tick under scrutiny spawns nothing). -/
def exitState : Game := { newGame with bullets := [exitBullet], spawnTimer := 100 }

/-- An enemy overlapped by both bullets of `doubleHitState` in the same tick. -/
def sharedEnemy : Enemy := { id := 0, x := 0, y := 1000, vy := 11 }

/-- A playing state with two bullets that both overlap `sharedEnemy` after
this tick's movement: the first marks it dead, the second still finds its
shape in the spatial index and scores a second hit on the same hostile. -/
def doubleHitState : Game :=
  { newGame with
      bullets := [{ x := 0, y := 1100, vy := bulletSpeed },
                  { x := 0, y := 1160, vy := bulletSpeed }],
      enemies := [sharedEnemy],
      spawnTimer := 100,
      nextId := 1 }

/-- A hostile already past the bottom boundary after this tick's move,
with id 0 (to be marked dead by a projectile hit). -/
def escapedDeadEnemy : Enemy := { id := 0, x := 0, y := 6400, vy := 11 }

/-! ### The controller strategy and trace used to reach a doubly-terminal
state (win and over both set).  `ctrl` is a strategy, not part of the Go
source: it chooses each tick's injected input as a function of the current
state (hold position at the spawn column; in round 0 withhold fire until an
enemy has reached the player so that two touches are taken; then clear each
round; in round 5 kill each hostile just above the player with single
shots, and time the final shot so that the 42nd hostile is hit by a bullet
in the same tick in which it first touches the player). -/

/-- Per-tick input strategy driving the game into the double-terminal state. -/
def ctrl (g : Game) : Input :=
  { left := false, right := false, up := false, down := false,
    fire :=
      if g.roundIdx == 0 && decide (0 < g.lives) then
        g.enemies.any (fun e => decide (5320 < e.y))
      else if g.roundIdx < 5 then
        true
      else if g.roundKills < 41 then
        g.enemies.any (fun e => decide (5000 < e.y) && decide (e.y + e.vy ≤ 5320))
      else
        g.enemies.any (fun e => decide (5320 < e.y + e.vy)),
    spawnX := 2225 }

/-- One controlled tick. -/
def stepC (g : Game) : Game := Update (ctrl g) g

/-- `n` controlled ticks. -/
def stepN : Nat → Game → Game
  | 0, g => g
  | n + 1, g => stepN n (stepC g)

/-- The controlled run after 200 ticks. -/
def c8state1 : Game :=
  { px := 2225, py := 5700, bullets := [], enemies := [{ id := 0, x := 2225, y := 1479, vy := 11 }, { id := 1, x := 2225, y := 1127, vy := 11 }, { id := 2, x := 2225, y := 775, vy := 11 }, { id := 3, x := 2225, y := 423, vy := 11 }, { id := 4, x := 2225, y := 71, vy := 11 }, { id := 5, x := 2225, y := -281, vy := 11 }], roundIdx := 0, roundSpawned := 6, roundKills := 0, totalKills := 0, cooldown := 0, spawnTimer := 24, lives := 2, inv := 0, win := false, over := false, nextId := 6 }

/-- The controlled run after 400 ticks. -/
def c8state2 : Game :=
  { px := 2225, py := 5700, bullets := [], enemies := [{ id := 0, x := 2225, y := 3679, vy := 11 }, { id := 1, x := 2225, y := 3327, vy := 11 }, { id := 2, x := 2225, y := 2975, vy := 11 }, { id := 3, x := 2225, y := 2623, vy := 11 }, { id := 4, x := 2225, y := 2271, vy := 11 }, { id := 5, x := 2225, y := 1919, vy := 11 }], roundIdx := 0, roundSpawned := 6, roundKills := 0, totalKills := 0, cooldown := 0, spawnTimer := 16, lives := 2, inv := 0, win := false, over := false, nextId := 6 }

/-- The controlled run after 600 ticks. -/
def c8state3 : Game :=
  { px := 2225, py := 5700, bullets := [], enemies := [{ id := 2, x := 2225, y := 5175, vy := 11 }, { id := 3, x := 2225, y := 4823, vy := 11 }, { id := 4, x := 2225, y := 4471, vy := 11 }, { id := 5, x := 2225, y := 4119, vy := 11 }], roundIdx := 0, roundSpawned := 6, roundKills := 2, totalKills := 2, cooldown := 0, spawnTimer := 8, lives := 1, inv := 10, win := false, over := false, nextId := 6 }

/-- The controlled run after 800 ticks. -/
def c8state4 : Game :=
  { px := 2225, py := 5700, bullets := [{ x := 2270, y := 280, vy := -60 }, { x := 2270, y := 880, vy := -60 }, { x := 2270, y := 1480, vy := -60 }, { x := 2270, y := 2080, vy := -60 }, { x := 2270, y := 2680, vy := -60 }, { x := 2270, y := 3280, vy := -60 }, { x := 2270, y := 3880, vy := -60 }, { x := 2270, y := 4480, vy := -60 }, { x := 2270, y := 5080, vy := -60 }], enemies := [], roundIdx := 1, roundSpawned := 4, roundKills := 4, totalKills := 10, cooldown := 5, spawnTimer := 1, lives := 0, inv := 0, win := false, over := false, nextId := 10 }

/-- The controlled run after 1000 ticks. -/
def c8state5 : Game :=
  { px := 2225, py := 5700, bullets := [{ x := 2270, y := 280, vy := -60 }, { x := 2270, y := 880, vy := -60 }, { x := 2270, y := 1480, vy := -60 }, { x := 2270, y := 2080, vy := -60 }, { x := 2270, y := 2680, vy := -60 }, { x := 2270, y := 3280, vy := -60 }, { x := 2270, y := 3880, vy := -60 }, { x := 2270, y := 4480, vy := -60 }, { x := 2270, y := 5080, vy := -60 }], enemies := [], roundIdx := 1, roundSpawned := 11, roundKills := 11, totalKills := 17, cooldown := 5, spawnTimer := 11, lives := 0, inv := 0, win := false, over := false, nextId := 17 }

/-- The controlled run after 1200 ticks. -/
def c8state6 : Game :=
  { px := 2225, py := 5700, bullets := [{ x := 2270, y := 220, vy := -60 }, { x := 2270, y := 760, vy := -60 }, { x := 2270, y := 1300, vy := -60 }, { x := 2270, y := 1840, vy := -60 }, { x := 2270, y := 2380, vy := -60 }, { x := 2270, y := 2920, vy := -60 }, { x := 2270, y := 3460, vy := -60 }, { x := 2270, y := 4000, vy := -60 }, { x := 2270, y := 4540, vy := -60 }, { x := 2270, y := 5080, vy := -60 }], enemies := [], roundIdx := 2, roundSpawned := 6, roundKills := 6, totalKills := 24, cooldown := 4, spawnTimer := 10, lives := 0, inv := 0, win := false, over := false, nextId := 24 }

/-- The controlled run after 1400 ticks. -/
def c8state7 : Game :=
  { px := 2225, py := 5700, bullets := [{ x := 2270, y := 100, vy := -60 }, { x := 2270, y := 640, vy := -60 }, { x := 2270, y := 1180, vy := -60 }, { x := 2270, y := 1720, vy := -60 }, { x := 2270, y := 2260, vy := -60 }, { x := 2270, y := 2800, vy := -60 }, { x := 2270, y := 3340, vy := -60 }, { x := 2270, y := 3880, vy := -60 }, { x := 2270, y := 4420, vy := -60 }, { x := 2270, y := 4960, vy := -60 }], enemies := [], roundIdx := 2, roundSpawned := 13, roundKills := 13, totalKills := 31, cooldown := 2, spawnTimer := 6, lives := 0, inv := 0, win := false, over := false, nextId := 31 }

/-- The controlled run after 1600 ticks. -/
def c8state8 : Game :=
  { px := 2225, py := 5700, bullets := [{ x := 2270, y := 520, vy := -60 }, { x := 2270, y := 1060, vy := -60 }, { x := 2270, y := 1600, vy := -60 }, { x := 2270, y := 2140, vy := -60 }, { x := 2270, y := 2680, vy := -60 }, { x := 2270, y := 3220, vy := -60 }, { x := 2270, y := 3760, vy := -60 }, { x := 2270, y := 4300, vy := -60 }, { x := 2270, y := 4840, vy := -60 }, { x := 2270, y := 5380, vy := -60 }], enemies := [], roundIdx := 3, roundSpawned := 3, roundKills := 3, totalKills := 39, cooldown := 9, spawnTimer := 23, lives := 0, inv := 0, win := false, over := false, nextId := 39 }

/-- The controlled run after 1800 ticks. -/
def c8state9 : Game :=
  { px := 2225, py := 5700, bullets := [{ x := 2270, y := -140, vy := -60 }, { x := 2270, y := 400, vy := -60 }, { x := 2270, y := 940, vy := -60 }, { x := 2270, y := 1480, vy := -60 }, { x := 2270, y := 2020, vy := -60 }, { x := 2270, y := 2560, vy := -60 }, { x := 2270, y := 3100, vy := -60 }, { x := 2270, y := 3640, vy := -60 }, { x := 2270, y := 4180, vy := -60 }, { x := 2270, y := 4720, vy := -60 }, { x := 2270, y := 5260, vy := -60 }], enemies := [], roundIdx := 3, roundSpawned := 10, roundKills := 10, totalKills := 46, cooldown := 7, spawnTimer := 5, lives := 0, inv := 0, win := false, over := false, nextId := 46 }

/-- The controlled run after 2000 ticks. -/
def c8state10 : Game :=
  { px := 2225, py := 5700, bullets := [{ x := 2270, y := 280, vy := -60 }, { x := 2270, y := 820, vy := -60 }, { x := 2270, y := 1360, vy := -60 }, { x := 2270, y := 1900, vy := -60 }, { x := 2270, y := 2440, vy := -60 }, { x := 2270, y := 2980, vy := -60 }, { x := 2270, y := 3520, vy := -60 }, { x := 2270, y := 4060, vy := -60 }, { x := 2270, y := 4600, vy := -60 }, { x := 2270, y := 5140, vy := -60 }], enemies := [], roundIdx := 3, roundSpawned := 18, roundKills := 18, totalKills := 54, cooldown := 5, spawnTimer := 13, lives := 0, inv := 0, win := false, over := false, nextId := 54 }

/-- The controlled run after 2200 ticks. -/
def c8state11 : Game :=
  { px := 2225, py := 5700, bullets := [{ x := 2270, y := 160, vy := -60 }, { x := 2270, y := 700, vy := -60 }, { x := 2270, y := 1240, vy := -60 }, { x := 2270, y := 1780, vy := -60 }, { x := 2270, y := 2320, vy := -60 }, { x := 2270, y := 2800, vy := -60 }, { x := 2270, y := 3280, vy := -60 }, { x := 2270, y := 3760, vy := -60 }, { x := 2270, y := 4240, vy := -60 }, { x := 2270, y := 4720, vy := -60 }, { x := 2270, y := 5200, vy := -60 }], enemies := [], roundIdx := 4, roundSpawned := 2, roundKills := 2, totalKills := 62, cooldown := 5, spawnTimer := 15, lives := 0, inv := 0, win := false, over := false, nextId := 62 }

/-- The controlled run after 2400 ticks. -/
def c8state12 : Game :=
  { px := 2225, py := 5700, bullets := [{ x := 2270, y := -80, vy := -60 }, { x := 2270, y := 400, vy := -60 }, { x := 2270, y := 880, vy := -60 }, { x := 2270, y := 1360, vy := -60 }, { x := 2270, y := 1840, vy := -60 }, { x := 2270, y := 2320, vy := -60 }, { x := 2270, y := 2800, vy := -60 }, { x := 2270, y := 3280, vy := -60 }, { x := 2270, y := 3760, vy := -60 }, { x := 2270, y := 4240, vy := -60 }, { x := 2270, y := 4720, vy := -60 }, { x := 2270, y := 5200, vy := -60 }], enemies := [], roundIdx := 4, roundSpawned := 10, roundKills := 10, totalKills := 70, cooldown := 5, spawnTimer := 7, lives := 0, inv := 0, win := false, over := false, nextId := 70 }

/-- The controlled run after 2600 ticks. -/
def c8state13 : Game :=
  { px := 2225, py := 5700, bullets := [{ x := 2270, y := 400, vy := -60 }, { x := 2270, y := 880, vy := -60 }, { x := 2270, y := 1360, vy := -60 }, { x := 2270, y := 1840, vy := -60 }, { x := 2270, y := 2320, vy := -60 }, { x := 2270, y := 2800, vy := -60 }, { x := 2270, y := 3280, vy := -60 }, { x := 2270, y := 3760, vy := -60 }, { x := 2270, y := 4240, vy := -60 }, { x := 2270, y := 4720, vy := -60 }, { x := 2270, y := 5200, vy := -60 }], enemies := [], roundIdx := 4, roundSpawned := 19, roundKills := 19, totalKills := 79, cooldown := 5, spawnTimer := 23, lives := 0, inv := 0, win := false, over := false, nextId := 79 }

/-- The controlled run after 2800 ticks. -/
def c8state14 : Game :=
  { px := 2225, py := 5700, bullets := [{ x := 2270, y := -80, vy := -60 }, { x := 2270, y := 400, vy := -60 }, { x := 2270, y := 880, vy := -60 }, { x := 2270, y := 1360, vy := -60 }, { x := 2270, y := 1840, vy := -60 }, { x := 2270, y := 2320, vy := -60 }, { x := 2270, y := 2800, vy := -60 }, { x := 2270, y := 3280, vy := -60 }, { x := 2270, y := 3760, vy := -60 }, { x := 2270, y := 4240, vy := -60 }, { x := 2270, y := 4720, vy := -60 }, { x := 2270, y := 5200, vy := -60 }], enemies := [], roundIdx := 4, roundSpawned := 27, roundKills := 27, totalKills := 87, cooldown := 5, spawnTimer := 15, lives := 0, inv := 0, win := false, over := false, nextId := 87 }

/-- The controlled run after 3000 ticks. -/
def c8state15 : Game :=
  { px := 2225, py := 5700, bullets := [], enemies := [{ id := 94, x := 2225, y := 348, vy := 26 }, { id := 95, x := 2225, y := -224, vy := 26 }], roundIdx := 5, roundSpawned := 6, roundKills := 4, totalKills := 94, cooldown := 0, spawnTimer := 17, lives := 0, inv := 0, win := false, over := false, nextId := 96 }

/-- The controlled run after 3200 ticks. -/
def c8state16 : Game :=
  { px := 2225, py := 5700, bullets := [], enemies := [{ id := 95, x := 2225, y := 4976, vy := 26 }, { id := 96, x := 2225, y := 4404, vy := 26 }, { id := 97, x := 2225, y := 3832, vy := 26 }, { id := 98, x := 2225, y := 3260, vy := 26 }, { id := 99, x := 2225, y := 2688, vy := 26 }, { id := 100, x := 2225, y := 2116, vy := 26 }, { id := 101, x := 2225, y := 1544, vy := 26 }, { id := 102, x := 2225, y := 972, vy := 26 }, { id := 103, x := 2225, y := 400, vy := 26 }, { id := 104, x := 2225, y := -172, vy := 26 }], roundIdx := 5, roundSpawned := 15, roundKills := 5, totalKills := 95, cooldown := 0, spawnTimer := 15, lives := 0, inv := 0, win := false, over := false, nextId := 105 }

/-- The controlled run after 3400 ticks. -/
def c8state17 : Game :=
  { px := 2225, py := 5700, bullets := [], enemies := [{ id := 105, x := 2225, y := 4456, vy := 26 }, { id := 106, x := 2225, y := 3884, vy := 26 }, { id := 107, x := 2225, y := 3312, vy := 26 }, { id := 108, x := 2225, y := 2740, vy := 26 }, { id := 109, x := 2225, y := 2168, vy := 26 }, { id := 110, x := 2225, y := 1596, vy := 26 }, { id := 111, x := 2225, y := 1024, vy := 26 }, { id := 112, x := 2225, y := 452, vy := 26 }, { id := 113, x := 2225, y := -120, vy := 26 }], roundIdx := 5, roundSpawned := 24, roundKills := 15, totalKills := 105, cooldown := 8, spawnTimer := 13, lives := 0, inv := 0, win := false, over := false, nextId := 114 }

/-- The controlled run after 3600 ticks. -/
def c8state18 : Game :=
  { px := 2225, py := 5700, bullets := [], enemies := [{ id := 114, x := 2225, y := 4508, vy := 26 }, { id := 115, x := 2225, y := 3936, vy := 26 }, { id := 116, x := 2225, y := 3364, vy := 26 }, { id := 117, x := 2225, y := 2792, vy := 26 }, { id := 118, x := 2225, y := 2220, vy := 26 }, { id := 119, x := 2225, y := 1648, vy := 26 }, { id := 120, x := 2225, y := 1076, vy := 26 }, { id := 121, x := 2225, y := 504, vy := 26 }, { id := 122, x := 2225, y := -68, vy := 26 }], roundIdx := 5, roundSpawned := 33, roundKills := 24, totalKills := 114, cooldown := 6, spawnTimer := 11, lives := 0, inv := 0, win := false, over := false, nextId := 123 }

/-- The controlled run after 3800 ticks. -/
def c8state19 : Game :=
  { px := 2225, py := 5700, bullets := [], enemies := [{ id := 123, x := 2225, y := 4560, vy := 26 }, { id := 124, x := 2225, y := 3988, vy := 26 }, { id := 125, x := 2225, y := 3416, vy := 26 }, { id := 126, x := 2225, y := 2844, vy := 26 }, { id := 127, x := 2225, y := 2272, vy := 26 }, { id := 128, x := 2225, y := 1700, vy := 26 }, { id := 129, x := 2225, y := 1128, vy := 26 }, { id := 130, x := 2225, y := 556, vy := 26 }, { id := 131, x := 2225, y := -16, vy := 26 }], roundIdx := 5, roundSpawned := 42, roundKills := 33, totalKills := 123, cooldown := 4, spawnTimer := 9, lives := 0, inv := 0, win := false, over := false, nextId := 132 }

/-- The controlled run after 4000 ticks. -/
def c8state20 : Game :=
  { px := 2225, py := 5700, bullets := [], enemies := [{ id := 131, x := 2225, y := 5184, vy := 26 }], roundIdx := 5, roundSpawned := 42, roundKills := 41, totalKills := 131, cooldown := 0, spawnTimer := 7, lives := 0, inv := 0, win := false, over := false, nextId := 132 }

/-- The controlled run after 4006 ticks: the 42nd hostile of round 5 is
killed by a bullet and touches the player in the same tick, so the tick
sets `over` (last life lost) and then `win` (final quota met): both
terminal flags hold. -/
def c8final : Game :=
  { px := 2225, py := 5700, bullets := [], enemies := [], roundIdx := 6, roundSpawned := 0, roundKills := 0, totalKills := 132, cooldown := 8, spawnTimer := 20, lives := -1, inv := 60, win := true, over := true, nextId := 132 }

/-! ## Basic structural lemmas -/

/-- `loseLife` only touches `lives`, `inv` and `over`. -/
theorem loseLife_fields (g : Game) :
    ∃ L I O, loseLife g = { g with lives := L, inv := I, over := O } := by
  unfold loseLife
  split
  · exact ⟨g.lives, g.inv, g.over, rfl⟩
  · dsimp only
    split
    · exact ⟨_, _, _, rfl⟩
    · exact ⟨_, _, _, rfl⟩

/-- `touchCheck` is either the identity or one `loseLife`. -/
theorem touchCheck_shape (px py : Int) (space : List Enemy) (g : Game) :
    touchCheck px py space g = g ∨ touchCheck px py space g = loseLife g := by
  unfold touchCheck
  split <;> simp

/-- `touchCheck` only touches `lives`, `inv` and `over`. -/
theorem touchCheck_fields (px py : Int) (space : List Enemy) (g : Game) :
    ∃ L I O, touchCheck px py space g = { g with lives := L, inv := I, over := O } := by
  rcases touchCheck_shape px py space g with h | h
  · exact ⟨g.lives, g.inv, g.over, by rw [h]⟩
  · rw [h]; exact loseLife_fields g

/-- The enemy loop only touches `lives`, `inv` and `over` of the game
record (the enemy list is returned separately). -/
theorem enemyPass_fields (dead : List Nat) (px py : Int) :
    ∀ (rest done : List Enemy) (g : Game),
      ∃ L I O, (enemyPass dead px py done rest g).2 =
        { g with lives := L, inv := I, over := O } := by
  intro rest
  induction rest with
  | nil => exact fun done g => ⟨g.lives, g.inv, g.over, rfl⟩
  | cons e rs ih =>
    intro done g
    unfold enemyPass
    dsimp only
    obtain ⟨L, I, O, hT⟩ := touchCheck_fields px py (done ++ moveEnemy e :: rs) g
    split
    · obtain ⟨L2, I2, O2, h2⟩ := ih done (touchCheck px py (done ++ moveEnemy e :: rs) g)
      exact ⟨L2, I2, O2, by rw [h2, hT]⟩
    · split
      · obtain ⟨L3, I3, O3, h3⟩ :=
          loseLife_fields (touchCheck px py (done ++ moveEnemy e :: rs) g)
        obtain ⟨L2, I2, O2, h2⟩ := ih done
          (loseLife (touchCheck px py (done ++ moveEnemy e :: rs) g))
        exact ⟨L2, I2, O2, by rw [h2, h3, hT]⟩
      · obtain ⟨L2, I2, O2, h2⟩ := ih (done ++ [moveEnemy e])
          (touchCheck px py (done ++ moveEnemy e :: rs) g)
        exact ⟨L2, I2, O2, by rw [h2, hT]⟩

/-- `movePlayer` only touches the player position. -/
theorem movePlayer_fields (i : Input) (g : Game) :
    ∃ X Y, movePlayer i g = { g with px := X, py := Y } := ⟨_, _, rfl⟩

/-- `tickTimers` only touches `inv` and `cooldown`. -/
theorem tickTimers_fields (g : Game) :
    ∃ I C, tickTimers g = { g with inv := I, cooldown := C } := by
  unfold tickTimers
  split
  · dsimp only
    split
    · exact ⟨_, _, rfl⟩
    · exact ⟨_, _, rfl⟩
  · dsimp only
    split
    · exact ⟨_, _, rfl⟩
    · exact ⟨g.inv, g.cooldown, rfl⟩

/-- `fireStep` only touches `bullets` and `cooldown`. -/
theorem fireStep_fields (i : Input) (g : Game) :
    ∃ B C, fireStep i g = { g with bullets := B, cooldown := C } := by
  unfold fireStep
  split
  · exact ⟨_, _, rfl⟩
  · exact ⟨g.bullets, g.cooldown, rfl⟩

/-- `spawnStep` only touches `enemies`, `roundSpawned`, `nextId` and
`spawnTimer`. -/
theorem spawnStep_fields (i : Input) (g : Game) :
    ∃ E S N T, spawnStep i g =
      { g with enemies := E, roundSpawned := S, nextId := N, spawnTimer := T } := by
  unfold spawnStep
  dsimp only
  split
  · split
    · exact ⟨_, _, _, _, rfl⟩
    · exact ⟨g.enemies, g.roundSpawned, g.nextId, _, rfl⟩
  · exact ⟨g.enemies, g.roundSpawned, g.nextId, _, rfl⟩

/-- The bullet stage only touches `bullets`, `roundKills` and `totalKills`. -/
theorem bulletStep_fields (g : Game) :
    ∃ B K T, (bulletStep g).1 =
      { g with bullets := B, roundKills := K, totalKills := T } := ⟨_, _, _, rfl⟩

/-- The enemy stage only touches `enemies`, `lives`, `inv` and `over`. -/
theorem enemyStage_fields (dead : List Nat) (g : Game) :
    ∃ E L I O, enemyStage dead g =
      { g with enemies := E, lives := L, inv := I, over := O } := by
  unfold enemyStage
  dsimp only
  obtain ⟨L, I, O, h⟩ := enemyPass_fields dead g.px g.py g.enemies [] g
  exact ⟨_, L, I, O, by rw [h]⟩

/-- `maybeAdvance` only touches `roundIdx`, `roundKills`, `roundSpawned`,
`spawnTimer` and `win`. -/
theorem maybeAdvance_fields (g : Game) :
    ∃ R K S T W, maybeAdvance g =
      { g with roundIdx := R, roundKills := K, roundSpawned := S,
               spawnTimer := T, win := W } := by
  unfold maybeAdvance
  split
  · dsimp only
    split
    · exact ⟨_, _, _, _, _, rfl⟩
    · exact ⟨_, _, _, _, g.win, rfl⟩
  · exact ⟨g.roundIdx, g.roundKills, g.roundSpawned, g.spawnTimer, g.win, rfl⟩

/-- When the guard of `loseLife` fails, a life is lost, the i-frame window
is armed, and the run ends exactly when the new `lives` is negative. -/
theorem loseLife_normal (g : Game) (h1 : ¬ 0 < g.inv) (h2 : g.win = false)
    (h3 : g.over = false) :
    loseLife g = { g with lives := g.lives - 1, inv := iframeTicks,
                          over := decide (g.lives - 1 < 0) } := by
  have hc : (decide (g.inv > 0) || g.win || g.over) = false := by
    simp [h1, h2, h3]
  unfold loseLife
  rw [hc]
  dsimp only
  by_cases hl : g.lives - 1 < 0
  · rw [if_pos hl]
    simp [hl]
  · rw [if_neg hl]
    simp [hl, h3]

/-! ## C9: the spawn-interval difficulty curve -/

/-- C9: for every round index `r ≥ 0`, `spawnInterval r` equals
`max minSpawnInterval (baseSpawnInterval - 2*r)`; consequently it is at
least `minSpawnInterval = 12` for all `r`, and it is non-increasing in `r`
down to that floor. -/
theorem spawnInterval_matches_curve (r : Nat) :
    spawnInterval r = max minSpawnInterval (baseSpawnInterval - 2 * (r : Int)) ∧
    minSpawnInterval = 12 ∧
    minSpawnInterval ≤ spawnInterval r ∧
    ∀ s : Nat, r ≤ s → spawnInterval s ≤ spawnInterval r := by
  refine ⟨?_, rfl, ?_, ?_⟩
  · unfold spawnInterval
    rw [max_def]
    dsimp only
    split <;> split <;> omega
  · unfold spawnInterval minSpawnInterval baseSpawnInterval
    dsimp only
    split <;> omega
  · intro s hs
    have hc : (s : Int) ≥ (r : Int) := by exact_mod_cast hs
    unfold spawnInterval
    dsimp only
    split <;> split <;> unfold minSpawnInterval baseSpawnInterval at * <;> omega

/-- Witness for C9 at concrete inputs. -/
theorem spawnInterval_matches_curve_witness :
    spawnInterval 7 ≤ spawnInterval 4 :=
  (spawnInterval_matches_curve 4).2.2.2 7 (by decide)

/-- A hit taken with at least one life to spare leaves the run going. -/
theorem loseLife_survives (g : Game) (h1 : ¬ 0 < g.inv) (h2 : g.win = false)
    (h3 : g.over = false) (h4 : 0 ≤ g.lives - 1) :
    (loseLife g).over = false ∧ (loseLife g).lives = g.lives - 1 ∧
    (loseLife g).win = false ∧ (loseLife g).inv = iframeTicks := by
  rw [loseLife_normal g h1 h2 h3]
  exact ⟨by simpa using by omega, rfl, h2, rfl⟩

/-! ## C2: `loseLife` semantics and the number of survivable hits -/

/-- C2: `loseLife` is a no-op when the i-frame window is open or the run is
over; otherwise it decrements `lives` by one, arms the window with
`iframeTicks = 60`, and sets the outcome to lost exactly when `lives`
drops below 0.  Starting from `startLives = 2`, the third unblocked hit
(each taken after the previous window has expired, modelled by `inv = 0`)
ends the run with `lives = -1`, and the first two do not. -/
theorem loseLife_contract (g : Game) :
    ((0 < g.inv ∨ g.win = true ∨ g.over = true) → loseLife g = g) ∧
    (iframeTicks = 60 ∧ startLives = 2) ∧
    (g.inv ≤ 0 → g.win = false → g.over = false →
      loseLife g = { g with lives := g.lives - 1, inv := iframeTicks,
                            over := decide (g.lives - 1 < 0) }) ∧
    (g.inv ≤ 0 → g.win = false → g.over = false → g.lives = startLives →
      (loseLife g).over = false ∧
      (loseLife { loseLife g with inv := 0 }).over = false ∧
      (loseLife { loseLife { loseLife g with inv := 0 } with inv := 0 }).over = true ∧
      (loseLife { loseLife { loseLife g with inv := 0 } with inv := 0 }).lives = -1) := by
  refine ⟨?_, ⟨rfl, rfl⟩, ?_, ?_⟩
  · intro h
    unfold loseLife
    have hc : (decide (g.inv > 0) || g.win || g.over) = true := by
      rcases h with h | h | h <;> simp [h]
    rw [hc]
    rfl
  · intro h1 h2 h3
    exact loseLife_normal g (by omega) h2 h3
  · intro h1 h2 h3 h4
    obtain ⟨o1, l1, w1, i1⟩ := loseLife_survives g (by omega) h2 h3
      (by rw [h4]; decide)
    have hl2 : ({ loseLife g with inv := 0 } : Game).lives = 1 := by
      show (loseLife g).lives = 1
      rw [l1, h4]
      decide
    obtain ⟨o2, l2, w2, i2⟩ :=
      loseLife_survives { loseLife g with inv := 0 }
        (by show ¬ (0:Int) < 0; decide) w1 o1 (by rw [hl2]; decide)
    have hl3 : ({ loseLife { loseLife g with inv := 0 } with inv := 0 } : Game).lives = 0 := by
      show (loseLife { loseLife g with inv := 0 }).lives = 0
      rw [l2, hl2]
      decide
    have e3 := loseLife_normal { loseLife { loseLife g with inv := 0 } with inv := 0 }
      (by show ¬ (0:Int) < 0; decide) w2 o2
    rw [e3]
    refine ⟨o1, o2, ?_, ?_⟩
    · show decide
        (({ loseLife { loseLife g with inv := 0 } with inv := 0 } : Game).lives - 1 < 0) = true
      rw [hl3]
      decide
    · show ({ loseLife { loseLife g with inv := 0 } with inv := 0 } : Game).lives - 1 = -1
      rw [hl3]
      decide

/-- Witness for C2 at a concrete state. -/
theorem loseLife_contract_witness :
    loseLife { newGame with inv := 5 } = { newGame with inv := 5 } :=
  (loseLife_contract { newGame with inv := 5 }).1 (Or.inl (by decide))

/-! ## C1: terminal states freeze the simulation -/

/-- Once `win` or `over` holds, a single `Update` is a no-op. -/
theorem Update_frozen (i : Input) (g : Game) (h : g.win = true ∨ g.over = true) :
    Update i g = g := by
  unfold Update
  rcases h with h | h <;> simp [h]

/-- C1: from any terminal state (win or over), every sequence of further
ticks, whatever the inputs, returns the state unchanged: no entity moves,
nothing spawns, nothing is removed, no timer or counter changes. -/
theorem frozen_forever (g : Game) (h : g.win = true ∨ g.over = true) :
    ∀ l : List Input, run l g = g := by
  intro l
  induction l with
  | nil => rfl
  | cons i l ih =>
    show run l (Update i g) = g
    rw [Update_frozen i g h]
    exact ih

/-- Witness for C1 at a concrete terminal state. -/
theorem frozen_forever_witness :
    run [{ left := false, right := false, up := false, down := false,
           fire := true, spawnX := 0 }]
      { newGame with over := true } = { newGame with over := true } :=
  frozen_forever { newGame with over := true } (Or.inr rfl) _

/-! ## Field-preservation lemmas for the round counters -/

/-- `movePlayer` preserves the round index. -/
theorem movePlayer_roundIdx (i : Input) (g : Game) :
    (movePlayer i g).roundIdx = g.roundIdx := by
  obtain ⟨X, Y, h⟩ := movePlayer_fields i g
  rw [h]

/-- `tickTimers` preserves the round index. -/
theorem tickTimers_roundIdx (g : Game) :
    (tickTimers g).roundIdx = g.roundIdx := by
  obtain ⟨I, C, h⟩ := tickTimers_fields g
  rw [h]

/-- `fireStep` preserves the round index. -/
theorem fireStep_roundIdx (i : Input) (g : Game) :
    (fireStep i g).roundIdx = g.roundIdx := by
  obtain ⟨B, C, h⟩ := fireStep_fields i g
  rw [h]

/-- `spawnStep` preserves the round index. -/
theorem spawnStep_roundIdx (i : Input) (g : Game) :
    (spawnStep i g).roundIdx = g.roundIdx := by
  obtain ⟨E, S, N, T, h⟩ := spawnStep_fields i g
  rw [h]

/-- The bullet stage preserves the round index. -/
theorem bulletStep_roundIdx (g : Game) :
    ((bulletStep g).1).roundIdx = g.roundIdx := by
  obtain ⟨B, K, T, h⟩ := bulletStep_fields g
  rw [h]

/-- The enemy stage preserves the round index. -/
theorem enemyStage_roundIdx (dead : List Nat) (g : Game) :
    (enemyStage dead g).roundIdx = g.roundIdx := by
  obtain ⟨E, L, I, O, h⟩ := enemyStage_fields dead g
  rw [h]

/-- `maybeAdvance` never decreases the round index. -/
theorem maybeAdvance_roundIdx_mono (g : Game) :
    g.roundIdx ≤ (maybeAdvance g).roundIdx := by
  unfold maybeAdvance
  split
  · dsimp only
    split
    · exact Nat.le_succ _
    · exact Nat.le_succ _
  · exact Nat.le_refl _

/-- One tick never decreases the round index. -/
theorem Update_roundIdx_mono (i : Input) (g : Game) :
    g.roundIdx ≤ (Update i g).roundIdx := by
  unfold Update
  split
  · exact Nat.le_refl _
  · dsimp only
    refine le_trans ?_ (maybeAdvance_roundIdx_mono _)
    rw [enemyStage_roundIdx, bulletStep_roundIdx, spawnStep_roundIdx,
        fireStep_roundIdx, tickTimers_roundIdx, movePlayer_roundIdx]

/-! ## C3: round advancement -/

/-- C3: `Update` ends with the advancement check; whenever the kills of
this round have reached the round's quota (round index in bounds), that
check increments the round index by exactly one, zeroes both per-round
counters, resets the spawn timer for the new round, and sets `win` exactly
when the new index reaches the number of quotas (`rounds.length = 6`);
and the round index is non-decreasing over any whole run. -/
theorem roundAdvance (g : Game) :
    (∀ i : Input, g.win = false → g.over = false →
      Update i g =
        maybeAdvance (enemyStage
          (bulletStep (spawnStep i (fireStep i (tickTimers (movePlayer i g))))).2
          (bulletStep (spawnStep i (fireStep i (tickTimers (movePlayer i g))))).1)) ∧
    (g.roundIdx < rounds.length → rounds.getD g.roundIdx 0 ≤ g.roundKills →
      maybeAdvance g =
        { g with roundIdx := g.roundIdx + 1, roundKills := 0, roundSpawned := 0,
                 spawnTimer := spawnInterval (g.roundIdx + 1),
                 win := g.win || decide (rounds.length ≤ g.roundIdx + 1) }) ∧
    rounds.length = 6 ∧
    (∀ l : List Input, g.roundIdx ≤ (run l g).roundIdx) := by
  refine ⟨?_, ?_, rfl, ?_⟩
  · intro i h1 h2
    unfold Update
    rw [h1, h2]
    rfl
  · intro h1 h2
    unfold maybeAdvance
    rw [if_pos ⟨h1, h2⟩]
    dsimp only
    by_cases h3 : rounds.length ≤ g.roundIdx + 1
    · rw [if_pos h3]
      simp [h3]
    · rw [if_neg h3]
      simp [h3]
  · have step : ∀ (l : List Input) (s : Game), s.roundIdx ≤ (run l s).roundIdx := by
      intro l
      induction l with
      | nil => exact fun s => Nat.le_refl _
      | cons i l ih =>
        intro s
        exact le_trans (Update_roundIdx_mono i s) (ih (Update i s))
    exact fun l => step l g

/-- Witness for C3 at a concrete state. -/
theorem roundAdvance_witness :
    (maybeAdvance { newGame with roundKills := 6 }).roundIdx = 1 ∧
    (maybeAdvance { newGame with roundKills := 6 }).win = false ∧
    (maybeAdvance { newGame with roundKills := 6 }).roundKills = 0 := by
  rw [(roundAdvance { newGame with roundKills := 6 }).2.1 (by decide) (by decide)]
  exact ⟨rfl, rfl, rfl⟩

/-! ## C4: projectiles leaving through the top -/

/-- C4 as stated is refuted at the exit boundary: a projectile that hits
nothing and whose moved position satisfies `y + bulletSize = 0` (so the
claimed exit condition `y + size < 0` is false) is nevertheless removed by
the tick. -/
theorem projectile_exit_boundary_counterexample :
    (Update idleInput exitState).bullets = [] ∧
    (∀ b ∈ exitState.bullets, firstEnemyHit (moveBullet b) exitState.enemies = none) ∧
    ¬ (exitBullet.y + bulletSpeed + bulletSize < 0) := by decide

/-- The kept-projectile component of the bullet loop: a projectile is
retained exactly when it hits nothing and its moved position satisfies
`y + bulletSize > 0`. -/
theorem bulletPass_kept (es : List Enemy) :
    ∀ (bs : List Bullet) (dead : List Nat),
      (bulletPass bs es dead).1 =
        (bs.map moveBullet).filter
          (fun b => (firstEnemyHit b es).isNone && decide (b.y + bulletSize > 0)) := by
  intro bs
  induction bs with
  | nil => intro dead; rfl
  | cons b rest ih =>
    intro dead
    simp only [bulletPass]
    cases h : firstEnemyHit (moveBullet b) es with
    | some eid =>
      simp only [List.map_cons, List.filter_cons, h, Option.isNone_some, Bool.false_and]
      rw [if_neg (by simp)]
      exact ih (eid :: dead)
    | none =>
      simp only [List.map_cons, List.filter_cons, h, Option.isNone_none, Bool.true_and]
      by_cases hy : (moveBullet b).y + bulletSize > 0
      · rw [if_pos hy, if_pos (decide_eq_true hy)]
        dsimp only
        rw [ih dead]
      · rw [if_neg hy, if_neg (by simpa using hy)]
        exact ih dead

/-- When every projectile misses, the bullet loop keeps exactly the
in-bounds moved projectiles, marks no hostile dead, and counts no kill. -/
theorem bulletPass_all_miss (es : List Enemy) :
    ∀ (bs : List Bullet) (dead : List Nat),
      (∀ b ∈ bs, firstEnemyHit (moveBullet b) es = none) →
      bulletPass bs es dead =
        ((bs.map moveBullet).filter (fun b => decide (b.y + bulletSize > 0)), dead, 0) := by
  intro bs
  induction bs with
  | nil => intro dead _; rfl
  | cons b rest ih =>
    intro dead hall
    have hb : firstEnemyHit (moveBullet b) es = none := hall b (by simp)
    have hrest : ∀ x ∈ rest, firstEnemyHit (moveBullet x) es = none :=
      fun x hx => hall x (List.mem_cons_of_mem _ hx)
    simp only [bulletPass, hb]
    by_cases hy : (moveBullet b).y + bulletSize > 0
    · rw [if_pos hy, ih dead hrest]
      simp only [List.map_cons, List.filter_cons]
      rw [if_pos (decide_eq_true hy)]
    · rw [if_neg hy, ih dead hrest]
      simp only [List.map_cons, List.filter_cons]
      rw [if_neg (by simpa using hy)]

/-- C4 amended: a projectile that does not hit any hostile during a tick is
retained if and only if its moved position satisfies `y + size > 0` (exit
through the top means `y + size ≤ 0`, boundary included); and a tick whose
projectiles all miss marks no hostile dead and produces no `Hit`/`Kill`
count (the projectile store — which also stands for the spatial index —
keeps exactly the surviving projectiles). -/
theorem projectile_retention (bs : List Bullet) (es : List Enemy) (dead : List Nat) :
    (bulletPass bs es dead).1 =
      (bs.map moveBullet).filter
        (fun b => (firstEnemyHit b es).isNone && decide (b.y + bulletSize > 0)) ∧
    ((∀ b ∈ bs, firstEnemyHit (moveBullet b) es = none) →
      bulletPass bs es dead =
        ((bs.map moveBullet).filter (fun b => decide (b.y + bulletSize > 0)), dead, 0)) :=
  ⟨bulletPass_kept es bs dead, bulletPass_all_miss es bs dead⟩

/-- Witness for the amended C4 at a concrete input. -/
theorem projectile_retention_witness :
    bulletPass [exitBullet] [] [] =
      (([exitBullet].map moveBullet).filter (fun b => decide (b.y + bulletSize > 0)),
       [], 0) :=
  (projectile_retention [exitBullet] [] []).2 (by decide)

/-! ## C5: per-projectile hit resolution and kill counting -/

/-- The kill count of the bullet loop equals the number of projectiles
whose first-overlap query found some hostile. -/
theorem bulletPass_kills (es : List Enemy) :
    ∀ (bs : List Bullet) (dead : List Nat),
      (bulletPass bs es dead).2.2 =
        bs.countP (fun b => (firstEnemyHit (moveBullet b) es).isSome) := by
  intro bs
  induction bs with
  | nil => intro dead; rfl
  | cons b rest ih =>
    intro dead
    simp only [bulletPass]
    cases h : firstEnemyHit (moveBullet b) es with
    | some eid =>
      dsimp only
      rw [ih (eid :: dead)]
      simp [List.countP_cons, h]
    | none =>
      by_cases hy : (moveBullet b).y + bulletSize > 0
      · rw [if_pos hy]
        dsimp only
        rw [ih dead]
        simp [List.countP_cons, h]
      · rw [if_neg hy, ih dead]
        simp [List.countP_cons, h]

/-- The dead-shape set accumulated by the bullet loop is exactly one mark
per hitting projectile: the first hostile each hitting projectile overlaps. -/
theorem bulletPass_dead (es : List Enemy) :
    ∀ (bs : List Bullet) (dead : List Nat),
      (bulletPass bs es dead).2.1 =
        (bs.filterMap (fun b => firstEnemyHit (moveBullet b) es)).reverse ++ dead := by
  intro bs
  induction bs with
  | nil => intro dead; rfl
  | cons b rest ih =>
    intro dead
    simp only [bulletPass]
    cases h : firstEnemyHit (moveBullet b) es with
    | some eid =>
      dsimp only
      rw [ih (eid :: dead)]
      simp [List.filterMap_cons, h, List.reverse_cons, List.append_assoc]
    | none =>
      by_cases hy : (moveBullet b).y + bulletSize > 0
      · rw [if_pos hy]
        dsimp only
        rw [ih dead]
        simp [List.filterMap_cons, h]
      · rw [if_neg hy, ih dead]
        simp [List.filterMap_cons, h]

/-- C5 as stated is refuted: in `doubleHitState` two projectiles overlap
the single hostile `sharedEnemy` in one tick; the tick destroys one
distinct hostile, yet both kill counters increase by 2 (the second
projectile still finds the dead-marked shape in the spatial index). -/
theorem projectile_double_count_counterexample :
    (Update idleInput doubleHitState).roundKills = 2 ∧
    (Update idleInput doubleHitState).totalKills = 2 ∧
    (Update idleInput doubleHitState).enemies = [] ∧
    (Update idleInput doubleHitState).bullets = [] ∧
    doubleHitState.enemies.length = 1 ∧
    doubleHitState.roundKills = 0 ∧ doubleHitState.totalKills = 0 := by decide

/-- C5 amended: during a tick's projectile pass each projectile hits at
most one hostile (the first overlapping shape the query returns, one mark
per hitting projectile), a projectile that hits is removed in the same
tick, and the kill counters increase by exactly the number of projectiles
that scored hits — which can exceed the number of distinct hostiles
destroyed when several projectiles overlap the same hostile in one tick. -/
theorem projectile_hit_accounting (bs : List Bullet) (es : List Enemy) (dead : List Nat) :
    (bulletPass bs es dead).2.2 =
      bs.countP (fun b => (firstEnemyHit (moveBullet b) es).isSome) ∧
    (bulletPass bs es dead).2.1 =
      (bs.filterMap (fun b => firstEnemyHit (moveBullet b) es)).reverse ++ dead ∧
    (∀ b ∈ bs, (firstEnemyHit (moveBullet b) es).isSome = true →
      moveBullet b ∉ (bulletPass bs es dead).1) := by
  refine ⟨bulletPass_kills es bs dead, bulletPass_dead es bs dead, ?_⟩
  intro b _ hsome hmem
  rw [bulletPass_kept es bs dead] at hmem
  have := List.of_mem_filter hmem
  simp only [Option.isNone_iff_eq_none] at this
  rw [Option.isSome_iff_exists] at hsome
  obtain ⟨eid, heid⟩ := hsome
  have hand := this
  rw [Bool.and_eq_true] at hand
  rw [heid] at hand
  simp at hand

/-- Witness for the amended C5 at a concrete input. -/
theorem projectile_hit_accounting_witness :
    moveBullet { x := 0, y := 1100, vy := bulletSpeed } ∉
      (bulletPass doubleHitState.bullets doubleHitState.enemies []).1 :=
  (projectile_hit_accounting doubleHitState.bullets doubleHitState.enemies []).2.2
    { x := 0, y := 1100, vy := bulletSpeed } (by decide) (by decide)

/-! ## C6: projectile kills pre-empt boundary damage -/

/-- Moving an enemy does not change its shape identity. -/
theorem moveEnemy_id (e : Enemy) : (moveEnemy e).id = e.id := rfl

/-- Every hostile id in the output of the enemy loop already occurs among
the ids of the processed or unprocessed hostiles. -/
theorem enemyPass_ids_subset (dead : List Nat) (px py : Int) :
    ∀ (rest done : List Enemy) (g : Game) (n : Nat),
      n ∈ ((enemyPass dead px py done rest g).1.map Enemy.id) →
      n ∈ (done.map Enemy.id) ++ (rest.map Enemy.id) := by
  intro rest
  induction rest with
  | nil => intro done g n h; simpa using h
  | cons e rs ih =>
    intro done g n h
    have hstep : enemyPass dead px py done (e :: rs) g =
        (if (moveEnemy e).id ∈ dead then
          enemyPass dead px py done rs (touchCheck px py (done ++ moveEnemy e :: rs) g)
        else if screenH < (moveEnemy e).y then
          enemyPass dead px py done rs
            (loseLife (touchCheck px py (done ++ moveEnemy e :: rs) g))
        else
          enemyPass dead px py (done ++ [moveEnemy e]) rs
            (touchCheck px py (done ++ moveEnemy e :: rs) g)) := rfl
    rw [hstep] at h
    by_cases h1 : (moveEnemy e).id ∈ dead
    · rw [if_pos h1] at h
      have := ih done _ n h
      simp only [List.map_cons, List.mem_append, List.mem_cons] at *
      tauto
    · rw [if_neg h1] at h
      by_cases h2 : screenH < (moveEnemy e).y
      · rw [if_pos h2] at h
        have := ih done _ n h
        simp only [List.map_cons, List.mem_append, List.mem_cons] at *
        tauto
      · rw [if_neg h2] at h
        have := ih (done ++ [moveEnemy e]) _ n h
        simp only [List.map_cons, List.map_append, List.mem_append, List.mem_cons,
          List.map_nil, moveEnemy_id, List.mem_singleton] at *
        tauto

/-- C6: a hostile marked for removal by a projectile hit this tick is
removed from the store/index without triggering `loseLife`, even when its
moved position has passed the bottom boundary: the loop iteration reduces
to processing the remaining hostiles after only the player-touch check
(no boundary `loseLife`), and the hostile's id is absent from the
resulting hostile list. -/
theorem dead_hostile_removed_without_boundary_damage
    (dead : List Nat) (px py : Int) (done rest : List Enemy) (e : Enemy) (g : Game)
    (hdead : (moveEnemy e).id ∈ dead)
    (hbottom : screenH < (moveEnemy e).y)
    (hfresh : e.id ∉ (done.map Enemy.id) ++ (rest.map Enemy.id)) :
    enemyPass dead px py done (e :: rest) g =
      enemyPass dead px py done rest (touchCheck px py (done ++ moveEnemy e :: rest) g) ∧
    e.id ∉ ((enemyPass dead px py done (e :: rest) g).1.map Enemy.id) := by
  have hstep : enemyPass dead px py done (e :: rest) g =
      (if (moveEnemy e).id ∈ dead then
        enemyPass dead px py done rest (touchCheck px py (done ++ moveEnemy e :: rest) g)
      else if screenH < (moveEnemy e).y then
        enemyPass dead px py done rest
          (loseLife (touchCheck px py (done ++ moveEnemy e :: rest) g))
      else
        enemyPass dead px py (done ++ [moveEnemy e]) rest
          (touchCheck px py (done ++ moveEnemy e :: rest) g)) := rfl
  constructor
  · rw [hstep, if_pos hdead]
  · rw [hstep, if_pos hdead]
    intro hmem
    exact hfresh (enemyPass_ids_subset dead px py rest done _ e.id hmem)

/-- Witness for C6 at a concrete state. -/
theorem dead_hostile_removed_witness :
    (0 : Nat) ∉
      ((enemyPass [0] newGame.px newGame.py [] [escapedDeadEnemy] newGame).1.map Enemy.id) :=
  (dead_hostile_removed_without_boundary_damage [0] newGame.px newGame.py [] []
    escapedDeadEnemy newGame (by decide) (by decide) (by decide)).2

/-! ## C7: at most one life lost per tick; i-frames suppress damage -/

/-- One-step unfolding of the enemy loop. -/
theorem enemyPass_cons (dead : List Nat) (px py : Int) (done : List Enemy) (e : Enemy)
    (rs : List Enemy) (g : Game) :
    enemyPass dead px py done (e :: rs) g =
      (if (moveEnemy e).id ∈ dead then
        enemyPass dead px py done rs (touchCheck px py (done ++ moveEnemy e :: rs) g)
      else if screenH < (moveEnemy e).y then
        enemyPass dead px py done rs
          (loseLife (touchCheck px py (done ++ moveEnemy e :: rs) g))
      else
        enemyPass dead px py (done ++ [moveEnemy e]) rs
          (touchCheck px py (done ++ moveEnemy e :: rs) g)) := rfl

/-- `loseLife` is a no-op while the invulnerability window is open. -/
theorem loseLife_noop (g : Game) (h : 0 < g.inv) : loseLife g = g := by
  unfold loseLife
  have hc : (decide (g.inv > 0) || g.win || g.over) = true := by simp [h]
  rw [hc]
  rfl

/-- `touchCheck` is a no-op when the invulnerability counter is nonzero. -/
theorem touchCheck_noop (px py : Int) (space : List Enemy) (g : Game)
    (h : g.inv ≠ 0) : touchCheck px py space g = g := by
  unfold touchCheck
  have hb : (g.inv == 0) = false := by simpa using h
  rw [hb]
  rfl

/-- Each `loseLife` either changes nothing or takes one life and arms the
window. -/
theorem loseLife_lives_cases (g : Game) :
    loseLife g = g ∨
    ((loseLife g).lives = g.lives - 1 ∧ (loseLife g).inv = iframeTicks) := by
  unfold loseLife
  split
  · exact Or.inl rfl
  · dsimp only
    split
    · exact Or.inr ⟨rfl, rfl⟩
    · exact Or.inr ⟨rfl, rfl⟩

/-- The state passed on by one enemy-loop iteration (after the touch check
and possibly the boundary `loseLife`) is either the incoming state or a
state with one life fewer and the window armed. -/
theorem hitState_cases (px py : Int) (sp : List Enemy) (g s : Game)
    (h : s = touchCheck px py sp g ∨ s = loseLife (touchCheck px py sp g)) :
    s = g ∨ (s.lives = g.lives - 1 ∧ s.inv = iframeTicks) := by
  rcases touchCheck_shape px py sp g with hT | hT
  · rcases h with h | h
    · left; rw [h, hT]
    · rw [h, hT]
      exact loseLife_lives_cases g
  · rcases h with h | h
    · rw [h, hT]
      exact loseLife_lives_cases g
    · rw [h, hT]
      rcases loseLife_lives_cases g with hL | hL
      · rw [hL]
        exact loseLife_lives_cases g
      · have hnoop : loseLife (loseLife g) = loseLife g :=
          loseLife_noop _ (by rw [hL.2]; decide)
        rw [hnoop]
        exact Or.inr hL

/-- While the invulnerability window is open, the whole enemy loop leaves
the game record unchanged. -/
theorem enemyPass_inv_pos (dead : List Nat) (px py : Int) :
    ∀ (rest done : List Enemy) (g : Game), 0 < g.inv →
      (enemyPass dead px py done rest g).2 = g := by
  intro rest
  induction rest with
  | nil => intro done g h; rfl
  | cons e rs ih =>
    intro done g h
    rw [enemyPass_cons, touchCheck_noop px py _ g (by omega)]
    by_cases h1 : (moveEnemy e).id ∈ dead
    · rw [if_pos h1]; exact ih done g h
    · rw [if_neg h1]
      by_cases h2 : screenH < (moveEnemy e).y
      · rw [if_pos h2, loseLife_noop g h]; exact ih done g h
      · rw [if_neg h2]; exact ih (done ++ [moveEnemy e]) g h

/-- Over one whole enemy loop, either `lives` and `inv` are unchanged, or
exactly one life was lost and the window is armed. -/
theorem enemyPass_lives (dead : List Nat) (px py : Int) :
    ∀ (rest done : List Enemy) (g : Game),
      ((enemyPass dead px py done rest g).2.lives = g.lives ∧
       (enemyPass dead px py done rest g).2.inv = g.inv) ∨
      ((enemyPass dead px py done rest g).2.lives = g.lives - 1 ∧
       (enemyPass dead px py done rest g).2.inv = iframeTicks) := by
  intro rest
  induction rest with
  | nil => intro done g; exact Or.inl ⟨rfl, rfl⟩
  | cons e rs ih =>
    intro done g
    rw [enemyPass_cons]
    by_cases h1 : (moveEnemy e).id ∈ dead
    · rw [if_pos h1]
      rcases hitState_cases px py (done ++ moveEnemy e :: rs) g _ (Or.inl rfl) with hs | hs
      · rw [hs]; exact ih done g
      · have hres := enemyPass_inv_pos dead px py rs done _ (by rw [hs.2]; decide)
        rw [hres]
        exact Or.inr hs
    · rw [if_neg h1]
      by_cases h2 : screenH < (moveEnemy e).y
      · rw [if_pos h2]
        rcases hitState_cases px py (done ++ moveEnemy e :: rs) g _ (Or.inr rfl) with hs | hs
        · rw [hs]; exact ih done g
        · have hres := enemyPass_inv_pos dead px py rs done _ (by rw [hs.2]; decide)
          rw [hres]
          exact Or.inr hs
      · rw [if_neg h2]
        rcases hitState_cases px py (done ++ moveEnemy e :: rs) g _ (Or.inl rfl) with hs | hs
        · rw [hs]; exact ih (done ++ [moveEnemy e]) g
        · have hres := enemyPass_inv_pos dead px py rs (done ++ [moveEnemy e]) _
            (by rw [hs.2]; decide)
          rw [hres]
          exact Or.inr hs

/-- `movePlayer` preserves `lives` and `inv`. -/
theorem movePlayer_lives_inv (i : Input) (g : Game) :
    (movePlayer i g).lives = g.lives ∧ (movePlayer i g).inv = g.inv := by
  obtain ⟨X, Y, h⟩ := movePlayer_fields i g
  rw [h]
  exact ⟨rfl, rfl⟩

/-- `tickTimers` preserves `lives` and counts the i-frame window down. -/
theorem tickTimers_lives_inv (g : Game) :
    (tickTimers g).lives = g.lives ∧
    (tickTimers g).inv = (if g.inv > 0 then g.inv - 1 else g.inv) := by
  unfold tickTimers
  by_cases h : g.inv > 0
  · rw [if_pos h]
    dsimp only
    rw [if_pos h]
    constructor
    · split <;> rfl
    · split <;> rfl
  · rw [if_neg h]
    dsimp only
    rw [if_neg h]
    constructor
    · split <;> rfl
    · split <;> rfl

/-- `fireStep` preserves `lives` and `inv`. -/
theorem fireStep_lives_inv (i : Input) (g : Game) :
    (fireStep i g).lives = g.lives ∧ (fireStep i g).inv = g.inv := by
  obtain ⟨B, C, h⟩ := fireStep_fields i g
  rw [h]
  exact ⟨rfl, rfl⟩

/-- `spawnStep` preserves `lives` and `inv`. -/
theorem spawnStep_lives_inv (i : Input) (g : Game) :
    (spawnStep i g).lives = g.lives ∧ (spawnStep i g).inv = g.inv := by
  obtain ⟨E, S, N, T, h⟩ := spawnStep_fields i g
  rw [h]
  exact ⟨rfl, rfl⟩

/-- The bullet stage preserves `lives` and `inv`. -/
theorem bulletStep_lives_inv (g : Game) :
    ((bulletStep g).1).lives = g.lives ∧ ((bulletStep g).1).inv = g.inv := by
  obtain ⟨B, K, T, h⟩ := bulletStep_fields g
  rw [h]
  exact ⟨rfl, rfl⟩

/-- `maybeAdvance` preserves `lives`. -/
theorem maybeAdvance_lives (g : Game) : (maybeAdvance g).lives = g.lives := by
  obtain ⟨R, K, S, T, W, h⟩ := maybeAdvance_fields g
  rw [h]

/-- The enemy stage follows the enemy-loop life accounting. -/
theorem enemyStage_lives (dead : List Nat) (g : Game) :
    ((enemyStage dead g).lives = g.lives ∧ (enemyStage dead g).inv = g.inv) ∨
    ((enemyStage dead g).lives = g.lives - 1 ∧ (enemyStage dead g).inv = iframeTicks) := by
  have h := enemyPass_lives dead g.px g.py g.enemies [] g
  exact h

/-- With the window open, the enemy stage changes no life accounting. -/
theorem enemyStage_inv_pos (dead : List Nat) (g : Game) (h : 0 < g.inv) :
    (enemyStage dead g).lives = g.lives ∧ (enemyStage dead g).inv = g.inv := by
  have hres := enemyPass_inv_pos dead g.px g.py g.enemies [] g h
  unfold enemyStage
  dsimp only
  rw [hres]
  exact ⟨rfl, rfl⟩

/-- C7: within any single tick, `lives` decreases by at most one — the
first successful `loseLife` arms the invulnerability window, which
suppresses every later `loseLife` in the same tick; and when the window
is still open after this tick's countdown (`1 < inv`), the tick causes no
damage at all. -/
theorem damage_per_tick (i : Input) (g : Game) :
    ((Update i g).lives = g.lives ∨ (Update i g).lives = g.lives - 1) ∧
    (1 < g.inv → (Update i g).lives = g.lives) := by
  unfold Update
  split
  · exact ⟨Or.inl rfl, fun _ => rfl⟩
  · dsimp only
    have hpre : ((bulletStep (spawnStep i (fireStep i (tickTimers (movePlayer i g))))).1).lives
        = g.lives := by
      rw [(bulletStep_lives_inv _).1, (spawnStep_lives_inv _ _).1, (fireStep_lives_inv _ _).1,
        (tickTimers_lives_inv _).1, (movePlayer_lives_inv _ _).1]
    constructor
    · rw [maybeAdvance_lives]
      rcases enemyStage_lives
          (bulletStep (spawnStep i (fireStep i (tickTimers (movePlayer i g))))).2
          (bulletStep (spawnStep i (fireStep i (tickTimers (movePlayer i g))))).1 with h | h
      · left; rw [h.1, hpre]
      · right; rw [h.1, hpre]
    · intro hinv
      have hpinv : ((bulletStep (spawnStep i (fireStep i (tickTimers (movePlayer i g))))).1).inv
          = g.inv - 1 := by
        rw [(bulletStep_lives_inv _).2, (spawnStep_lives_inv _ _).2, (fireStep_lives_inv _ _).2,
          (tickTimers_lives_inv _).2, (movePlayer_lives_inv _ _).2, if_pos (by omega : g.inv > 0)]
      have h0 : 0 < ((bulletStep (spawnStep i (fireStep i (tickTimers (movePlayer i g))))).1).inv := by
        rw [hpinv]; omega
      rw [maybeAdvance_lives,
        (enemyStage_inv_pos _ _ h0).1, hpre]

/-- Witness for C7 at a concrete state with an open window. -/
theorem damage_per_tick_witness :
    (Update idleInput { newGame with inv := 5 }).lives =
      ({ newGame with inv := 5 } : Game).lives :=
  (damage_per_tick idleInput { newGame with inv := 5 }).2 (by decide)

/-! ## C10: spawned-this-round never exceeds the quota -/

/-- In a playing state, `Update` is the staged pipeline ending in the
advancement check. -/
theorem Update_playing (i : Input) (g : Game) (h1 : g.win = false) (h2 : g.over = false) :
    Update i g =
      maybeAdvance (enemyStage
        (bulletStep (spawnStep i (fireStep i (tickTimers (movePlayer i g))))).2
        (bulletStep (spawnStep i (fireStep i (tickTimers (movePlayer i g))))).1) := by
  unfold Update
  rw [h1, h2]
  rfl

/-- `movePlayer` preserves `roundSpawned`. -/
theorem movePlayer_roundSpawned (i : Input) (g : Game) :
    (movePlayer i g).roundSpawned = g.roundSpawned := by
  obtain ⟨X, Y, h⟩ := movePlayer_fields i g
  rw [h]

/-- `tickTimers` preserves `roundSpawned`. -/
theorem tickTimers_roundSpawned (g : Game) :
    (tickTimers g).roundSpawned = g.roundSpawned := by
  obtain ⟨I, C, h⟩ := tickTimers_fields g
  rw [h]

/-- `fireStep` preserves `roundSpawned`. -/
theorem fireStep_roundSpawned (i : Input) (g : Game) :
    (fireStep i g).roundSpawned = g.roundSpawned := by
  obtain ⟨B, C, h⟩ := fireStep_fields i g
  rw [h]

/-- The bullet stage preserves `roundSpawned`. -/
theorem bulletStep_roundSpawned (g : Game) :
    ((bulletStep g).1).roundSpawned = g.roundSpawned := by
  obtain ⟨B, K, T, h⟩ := bulletStep_fields g
  rw [h]

/-- The enemy stage preserves `roundSpawned`. -/
theorem enemyStage_roundSpawned (dead : List Nat) (g : Game) :
    (enemyStage dead g).roundSpawned = g.roundSpawned := by
  obtain ⟨E, L, I, O, h⟩ := enemyStage_fields dead g
  rw [h]

/-- `spawnStep` keeps `roundSpawned` within the current round's quota. -/
theorem spawnStep_quota (i : Input) (g : Game)
    (h : g.roundSpawned ≤ rounds.getD g.roundIdx 0) :
    (spawnStep i g).roundSpawned ≤ rounds.getD g.roundIdx 0 := by
  unfold spawnStep
  dsimp only
  split
  · split
    · next hlt => exact hlt
    · exact h
  · exact h

/-- The advancement check keeps the invariant: in a still-playing result
the round index is in bounds and the spawn count within quota. -/
theorem maybeAdvance_invariant (g : Game)
    (h1 : g.roundIdx < rounds.length)
    (h2 : g.roundSpawned ≤ rounds.getD g.roundIdx 0)
    (hw : (maybeAdvance g).win = false) :
    (maybeAdvance g).roundIdx < rounds.length ∧
    (maybeAdvance g).roundSpawned ≤ rounds.getD (maybeAdvance g).roundIdx 0 := by
  unfold maybeAdvance at hw ⊢
  by_cases c : g.roundIdx < rounds.length ∧ rounds.getD g.roundIdx 0 ≤ g.roundKills
  · rw [if_pos c] at hw ⊢
    dsimp only at hw ⊢
    by_cases c2 : rounds.length ≤ g.roundIdx + 1
    · rw [if_pos c2] at hw
      exact absurd hw (by simp)
    · rw [if_neg c2] at hw ⊢
      constructor
      · show g.roundIdx + 1 < rounds.length
        omega
      · exact Nat.zero_le _
  · rw [if_neg c] at hw ⊢
    exact ⟨h1, h2⟩

/-- C10: in every reachable still-playing state the round index is in
bounds and `roundSpawned` never exceeds the current round's quota; and
when the spawn timer expires while the quota is already met, the spawn is
silently suppressed — nothing is added to the world, no counter moves,
only the timer is reset. -/
theorem spawn_quota_invariant :
    (∀ g : Game, Reachable g → g.win = false →
      g.roundIdx < rounds.length ∧ g.roundSpawned ≤ rounds.getD g.roundIdx 0) ∧
    (∀ (i : Input) (g : Game), g.spawnTimer - 1 ≤ 0 → g.roundIdx < rounds.length →
      rounds.getD g.roundIdx 0 ≤ g.roundSpawned →
      spawnStep i g = { g with spawnTimer := spawnInterval g.roundIdx }) := by
  constructor
  · intro g hreach
    induction hreach with
    | init => intro _; exact ⟨by decide, by decide⟩
    | step i g hg ih =>
      intro hwin
      by_cases hterm : g.win = true ∨ g.over = true
      · rw [Update_frozen i g hterm] at hwin ⊢
        exact ih hwin
      · have hw : g.win = false := by
          revert hterm; cases g.win <;> simp
        have ho : g.over = false := by
          revert hterm; cases g.over <;> simp
        rw [Update_playing i g hw ho] at hwin ⊢
        obtain ⟨hgidx, hgq⟩ := ih hw
        have hYidx : (enemyStage
            (bulletStep (spawnStep i (fireStep i (tickTimers (movePlayer i g))))).2
            (bulletStep (spawnStep i (fireStep i (tickTimers (movePlayer i g))))).1).roundIdx
            = g.roundIdx := by
          rw [enemyStage_roundIdx, bulletStep_roundIdx, spawnStep_roundIdx,
            fireStep_roundIdx, tickTimers_roundIdx, movePlayer_roundIdx]
        have hYq : (enemyStage
            (bulletStep (spawnStep i (fireStep i (tickTimers (movePlayer i g))))).2
            (bulletStep (spawnStep i (fireStep i (tickTimers (movePlayer i g))))).1).roundSpawned
            ≤ rounds.getD g.roundIdx 0 := by
          rw [enemyStage_roundSpawned, bulletStep_roundSpawned]
          have hq2 : (fireStep i (tickTimers (movePlayer i g))).roundSpawned ≤
              rounds.getD (fireStep i (tickTimers (movePlayer i g))).roundIdx 0 := by
            rw [fireStep_roundSpawned, tickTimers_roundSpawned, movePlayer_roundSpawned,
              fireStep_roundIdx, tickTimers_roundIdx, movePlayer_roundIdx]
            exact hgq
          have := spawnStep_quota i (fireStep i (tickTimers (movePlayer i g))) hq2
          rw [fireStep_roundIdx, tickTimers_roundIdx, movePlayer_roundIdx] at this
          exact this
        exact maybeAdvance_invariant _ (by rw [hYidx]; exact hgidx)
          (by rw [hYidx]; exact hYq) hwin
  · intro i g ht hidx hq
    unfold spawnStep
    dsimp only
    rw [if_pos ⟨ht, hidx⟩, if_neg (by omega)]

/-- Witness for C10 at a concrete state whose quota is already met. -/
theorem spawn_quota_invariant_witness :
    spawnStep idleInput { newGame with spawnTimer := 0, roundSpawned := 6 } =
      { newGame with spawnTimer := spawnInterval 0, roundSpawned := 6 } :=
  spawn_quota_invariant.2 idleInput { newGame with spawnTimer := 0, roundSpawned := 6 }
    (by decide) (by decide) (by decide)

/-! ## C8: the win and over flags are not mutually exclusive -/

/-- Splitting a controlled run. -/
theorem stepN_add (m n : Nat) (g : Game) :
    stepN (m + n) g = stepN n (stepN m g) := by
  induction m generalizing g with
  | zero => rw [Nat.zero_add]; rfl
  | succ m ih =>
    rw [Nat.succ_add]
    show stepN (m + n) (stepC g) = stepN n (stepN (m + 1) g)
    rw [ih (stepC g)]
    rfl

/-- Controlled runs stay inside the reachable states. -/
theorem reachable_stepN (n : Nat) (g : Game) (h : Reachable g) :
    Reachable (stepN n g) := by
  induction n generalizing g with
  | zero => exact h
  | succ n ih => exact ih (stepC g) (Reachable.step (ctrl g) g h)

set_option maxRecDepth 4000000 in
/-- Evaluation of controlled ticks 0 to 200. -/
theorem c8chunk1 : stepN 200 newGame = c8state1 := by decide

set_option maxRecDepth 4000000 in
/-- Evaluation of controlled ticks 200 to 400. -/
theorem c8chunk2 : stepN 200 c8state1 = c8state2 := by decide

set_option maxRecDepth 4000000 in
/-- Evaluation of controlled ticks 400 to 600. -/
theorem c8chunk3 : stepN 200 c8state2 = c8state3 := by decide

set_option maxRecDepth 4000000 in
/-- Evaluation of controlled ticks 600 to 800. -/
theorem c8chunk4 : stepN 200 c8state3 = c8state4 := by decide

set_option maxRecDepth 4000000 in
/-- Evaluation of controlled ticks 800 to 1000. -/
theorem c8chunk5 : stepN 200 c8state4 = c8state5 := by decide

set_option maxRecDepth 4000000 in
/-- Evaluation of controlled ticks 1000 to 1200. -/
theorem c8chunk6 : stepN 200 c8state5 = c8state6 := by decide

set_option maxRecDepth 4000000 in
/-- Evaluation of controlled ticks 1200 to 1400. -/
theorem c8chunk7 : stepN 200 c8state6 = c8state7 := by decide

set_option maxRecDepth 4000000 in
/-- Evaluation of controlled ticks 1400 to 1600. -/
theorem c8chunk8 : stepN 200 c8state7 = c8state8 := by decide

set_option maxRecDepth 4000000 in
/-- Evaluation of controlled ticks 1600 to 1800. -/
theorem c8chunk9 : stepN 200 c8state8 = c8state9 := by decide

set_option maxRecDepth 4000000 in
/-- Evaluation of controlled ticks 1800 to 2000. -/
theorem c8chunk10 : stepN 200 c8state9 = c8state10 := by decide

set_option maxRecDepth 4000000 in
/-- Evaluation of controlled ticks 2000 to 2200. -/
theorem c8chunk11 : stepN 200 c8state10 = c8state11 := by decide

set_option maxRecDepth 4000000 in
/-- Evaluation of controlled ticks 2200 to 2400. -/
theorem c8chunk12 : stepN 200 c8state11 = c8state12 := by decide

set_option maxRecDepth 4000000 in
/-- Evaluation of controlled ticks 2400 to 2600. -/
theorem c8chunk13 : stepN 200 c8state12 = c8state13 := by decide

set_option maxRecDepth 4000000 in
/-- Evaluation of controlled ticks 2600 to 2800. -/
theorem c8chunk14 : stepN 200 c8state13 = c8state14 := by decide

set_option maxRecDepth 4000000 in
/-- Evaluation of controlled ticks 2800 to 3000. -/
theorem c8chunk15 : stepN 200 c8state14 = c8state15 := by decide

set_option maxRecDepth 4000000 in
/-- Evaluation of controlled ticks 3000 to 3200. -/
theorem c8chunk16 : stepN 200 c8state15 = c8state16 := by decide

set_option maxRecDepth 4000000 in
/-- Evaluation of controlled ticks 3200 to 3400. -/
theorem c8chunk17 : stepN 200 c8state16 = c8state17 := by decide

set_option maxRecDepth 4000000 in
/-- Evaluation of controlled ticks 3400 to 3600. -/
theorem c8chunk18 : stepN 200 c8state17 = c8state18 := by decide

set_option maxRecDepth 4000000 in
/-- Evaluation of controlled ticks 3600 to 3800. -/
theorem c8chunk19 : stepN 200 c8state18 = c8state19 := by decide

set_option maxRecDepth 4000000 in
/-- Evaluation of controlled ticks 3800 to 4000. -/
theorem c8chunk20 : stepN 200 c8state19 = c8state20 := by decide

set_option maxRecDepth 4000000 in
/-- Evaluation of the last six controlled ticks. -/
theorem c8chunkF : stepN 6 c8state20 = c8final := by decide

/-- The controlled run after 400 ticks, by composition. -/
theorem c8run2 : stepN 400 newGame = c8state2 := by
  rw [show (400 : Nat) = 200 + 200 from rfl, stepN_add, c8chunk1]
  exact c8chunk2

/-- The controlled run after 600 ticks, by composition. -/
theorem c8run3 : stepN 600 newGame = c8state3 := by
  rw [show (600 : Nat) = 400 + 200 from rfl, stepN_add, c8run2]
  exact c8chunk3

/-- The controlled run after 800 ticks, by composition. -/
theorem c8run4 : stepN 800 newGame = c8state4 := by
  rw [show (800 : Nat) = 600 + 200 from rfl, stepN_add, c8run3]
  exact c8chunk4

/-- The controlled run after 1000 ticks, by composition. -/
theorem c8run5 : stepN 1000 newGame = c8state5 := by
  rw [show (1000 : Nat) = 800 + 200 from rfl, stepN_add, c8run4]
  exact c8chunk5

/-- The controlled run after 1200 ticks, by composition. -/
theorem c8run6 : stepN 1200 newGame = c8state6 := by
  rw [show (1200 : Nat) = 1000 + 200 from rfl, stepN_add, c8run5]
  exact c8chunk6

/-- The controlled run after 1400 ticks, by composition. -/
theorem c8run7 : stepN 1400 newGame = c8state7 := by
  rw [show (1400 : Nat) = 1200 + 200 from rfl, stepN_add, c8run6]
  exact c8chunk7

/-- The controlled run after 1600 ticks, by composition. -/
theorem c8run8 : stepN 1600 newGame = c8state8 := by
  rw [show (1600 : Nat) = 1400 + 200 from rfl, stepN_add, c8run7]
  exact c8chunk8

/-- The controlled run after 1800 ticks, by composition. -/
theorem c8run9 : stepN 1800 newGame = c8state9 := by
  rw [show (1800 : Nat) = 1600 + 200 from rfl, stepN_add, c8run8]
  exact c8chunk9

/-- The controlled run after 2000 ticks, by composition. -/
theorem c8run10 : stepN 2000 newGame = c8state10 := by
  rw [show (2000 : Nat) = 1800 + 200 from rfl, stepN_add, c8run9]
  exact c8chunk10

/-- The controlled run after 2200 ticks, by composition. -/
theorem c8run11 : stepN 2200 newGame = c8state11 := by
  rw [show (2200 : Nat) = 2000 + 200 from rfl, stepN_add, c8run10]
  exact c8chunk11

/-- The controlled run after 2400 ticks, by composition. -/
theorem c8run12 : stepN 2400 newGame = c8state12 := by
  rw [show (2400 : Nat) = 2200 + 200 from rfl, stepN_add, c8run11]
  exact c8chunk12

/-- The controlled run after 2600 ticks, by composition. -/
theorem c8run13 : stepN 2600 newGame = c8state13 := by
  rw [show (2600 : Nat) = 2400 + 200 from rfl, stepN_add, c8run12]
  exact c8chunk13

/-- The controlled run after 2800 ticks, by composition. -/
theorem c8run14 : stepN 2800 newGame = c8state14 := by
  rw [show (2800 : Nat) = 2600 + 200 from rfl, stepN_add, c8run13]
  exact c8chunk14

/-- The controlled run after 3000 ticks, by composition. -/
theorem c8run15 : stepN 3000 newGame = c8state15 := by
  rw [show (3000 : Nat) = 2800 + 200 from rfl, stepN_add, c8run14]
  exact c8chunk15

/-- The controlled run after 3200 ticks, by composition. -/
theorem c8run16 : stepN 3200 newGame = c8state16 := by
  rw [show (3200 : Nat) = 3000 + 200 from rfl, stepN_add, c8run15]
  exact c8chunk16

/-- The controlled run after 3400 ticks, by composition. -/
theorem c8run17 : stepN 3400 newGame = c8state17 := by
  rw [show (3400 : Nat) = 3200 + 200 from rfl, stepN_add, c8run16]
  exact c8chunk17

/-- The controlled run after 3600 ticks, by composition. -/
theorem c8run18 : stepN 3600 newGame = c8state18 := by
  rw [show (3600 : Nat) = 3400 + 200 from rfl, stepN_add, c8run17]
  exact c8chunk18

/-- The controlled run after 3800 ticks, by composition. -/
theorem c8run19 : stepN 3800 newGame = c8state19 := by
  rw [show (3800 : Nat) = 3600 + 200 from rfl, stepN_add, c8run18]
  exact c8chunk19

/-- The controlled run after 4000 ticks, by composition. -/
theorem c8run20 : stepN 4000 newGame = c8state20 := by
  rw [show (4000 : Nat) = 3800 + 200 from rfl, stepN_add, c8run19]
  exact c8chunk20

/-- C8 as stated is refuted: `c8final` is reachable from `newGame` (by the
4006-tick controlled run) and has both `win = true` and `over = true` — in
its final tick the last life is lost (an enemy touch with `lives = 0`)
and, in the same tick, the last round's quota is met; the advancement
check does not consult `over`, so it sets `win` as well. -/
theorem win_and_over_reachable :
    Reachable c8final ∧ c8final.win = true ∧ c8final.over = true := by
  have hfin : stepN 4006 newGame = c8final := by
    rw [show (4006 : Nat) = 4000 + 6 from rfl, stepN_add, c8run20]
    exact c8chunkF
  refine ⟨?_, rfl, rfl⟩
  rw [← hfin]
  exact reachable_stepN 4006 newGame Reachable.init

/-- C8 amended: the two terminal flags are individually monotone — once
`win` or `over` is set it stays set forever — but they are not mutually
exclusive: when the final life is lost in the same tick in which the final
round's quota is met, the tick sets both flags (see the counterexample),
and the doubly-terminal state then freezes like any terminal state. -/
theorem outcome_flags_monotone (i : Input) (g : Game) :
    (g.win = true → (Update i g).win = true) ∧
    (g.over = true → (Update i g).over = true) := by
  constructor
  · intro h
    rw [Update_frozen i g (Or.inl h)]
    exact h
  · intro h
    rw [Update_frozen i g (Or.inr h)]
    exact h

/-- Witness for the amended C8 at a concrete state. -/
theorem outcome_flags_monotone_witness :
    (Update idleInput { newGame with win := true }).win = true :=
  (outcome_flags_monotone idleInput { newGame with win := true }).1 rfl
